import Mathlib

/-!
Shallow embedding of the grid-based Bayesian pose estimator implemented by the
`Nav` node in `nav.py` of the `thomas` repository.

Dense tensors of shape `[101, 101, 128]` (height, width, yaw) are embedded as
functions `Idx → K` over a linear ordered field `K`; broadcast tensor
arithmetic becomes pointwise arithmetic.  Transcendental library functions
(`sin`, `cos`, `exp`, `log`) and the constant `π` have no computable
counterpart in an exact field, so they are taken as parameters of the
definitions that use them; theorems instantiate them with `Real.sin`,
`Real.cos`, `Real.exp`, `Real.log` and `Real.pi` where a claim depends on the
actual functions, and bounds are proved uniformly in these parameters where
they cancel out.

In this exact-arithmetic model division by zero yields `0` (the Lean field
convention); the single place the source can produce a NaN from finite inputs
(`0/0` in `box_probability`, removed there by `torch.nan_to_num(_, nan=0.0)`)
therefore agrees with the model.
-/

set_option maxRecDepth 4000

namespace ThomasNav

/-- Pose-grid index `(iy, ix, itheta)`: axis 0 indexes y-cells (row 0 is the
maximal world-y), axis 1 indexes x-cells, axis 2 indexes yaw cells.  The grid
constants `num_grid_cells = 101` and `num_orientation_cells = 128` from
`Nav.__init__` appear here as the type-level sizes. -/
abbrev Idx : Type := Fin 101 × Fin 101 × Fin 128

/-- A dense `[101, 101, 128]` tensor of values in `K`. -/
abbrev Grid (K : Type) : Type := Idx → K

instance : Nonempty Idx := ⟨(⟨0, by norm_num⟩, ⟨0, by norm_num⟩, ⟨0, by norm_num⟩)⟩

variable {K : Type} [LinearOrderedField K]

/-- Sum of a grid over all `101 * 101 * 128` cells. -/
def gridSum (m : Grid K) : K := ∑ c : Idx, m c

/-- Camera intrinsic `f_x = 494` (module level constant in `nav.py`). -/
def f_x : ℕ := 494

/-- Camera intrinsic `f_y = 294` (module level constant in `nav.py`). -/
def f_y : ℕ := 294

/-- `self.num_grid_cells = 101`. -/
def num_grid_cells : ℕ := 101

/-- `self.num_orientation_cells = 128`. -/
def num_orientation_cells : ℕ := 128

/-- `self.world_grid_length = 3.0`. -/
def world_grid_length : K := 3

/-- `self.world_cell_size = self.world_grid_length / self.num_grid_cells`. -/
def world_cell_size : K := world_grid_length / (num_grid_cells : K)

/-- `self.grid_cells_origin_x = -1.5`. -/
def grid_cells_origin_x : K := -1.5

/-- `self.grid_cells_origin_y = -1.5`. -/
def grid_cells_origin_y : K := -1.5

/-- `self.world_z = .24`: the fixed robot (camera) height. -/
def world_z : K := 0.24

/-- A world-frame 3D point (`WorldPoint` namedtuple). -/
structure WorldPoint (K : Type) where
  x : K
  y : K
  z : K

/-- A known landmark: a label and five world points (`WorldObject` namedtuple). -/
structure WorldObject (K : Type) where
  name : String
  centre : WorldPoint K
  bottom_left : WorldPoint K
  bottom_right : WorldPoint K
  top_left : WorldPoint K
  top_right : WorldPoint K

/-- An image-space box of centre `(cx, cy)` and size `(w, h)`; used both for
per-cell predicted boxes (`BoundingBoxes` entries) and for detection boxes
(`bbox.center.position.x`, `bbox.size_x`, `bbox.size_y` of a message). -/
structure BBox (K : Type) where
  cx : K
  cy : K
  w : K
  h : K

/-- `self.world_position = (torch.arange(101) + 0.5) * cell_size - length/2`:
the world coordinate of lattice index `i`. -/
def world_position_at (i : ℕ) : K := ((i : K) + 0.5) * world_cell_size - world_grid_length / 2

/-- Per-cell world x: after `torch.meshgrid(xs, ys, thetas, indexing='xy')`
the tensor `world_x[iy, ix, k]` equals `world_xs[ix]`. -/
def world_x_at (c : Idx) : K := world_position_at c.2.1.val

/-- Per-cell world y: `world_ys = flip(world_position)`, so
`world_y[iy, ix, k] = world_position[100 - iy]` (row 0 is maximal world-y). -/
def world_y_at (c : Idx) : K := world_position_at (100 - c.1.val)

/-- Per-cell yaw: `world_thetas = arange(128) * 2 * math.pi / 128`; the value
of `π` is the parameter `kpi`. -/
def world_theta_at (kpi : K) (c : Idx) : K :=
  (c.2.2.val : K) * (2 * kpi) / (num_orientation_cells : K)

/-- `Nav.world_to_camera` evaluated at one pose-grid cell with robot pose
`(x, y, th)`: translate by the robot position, rotate by the robot yaw into
the camera frame, project with the pinhole model.  `ksin`/`kcos` stand for
`torch.sin`/`torch.cos`. -/
def world_to_camera (ksin kcos : K → K) (x y th : K) (p : WorldPoint K) : K × K :=
  let world_translate_x := p.x - x
  let world_translate_y := p.y - y
  let world_translate_z := p.z - world_z
  let world_rotate_x := ksin th * world_translate_y + kcos th * world_translate_x
  let world_rotate_y := kcos th * world_translate_y - ksin th * world_translate_x
  let world_rotate_z := world_translate_z
  (160 + (f_x : K) * (-world_rotate_y) / world_rotate_x,
   120 + (f_y : K) * (-world_rotate_z) / world_rotate_x)

/-- `Nav.world_to_bbox` evaluated at one pose-grid cell: project the five
landmark points, average the corner columns/rows into box edges, and clip the
width and height at `0` (`torch.clip(_, min=0.0)` is `max _ 0`). -/
def world_to_bbox (ksin kcos : K → K) (x y th : K) (obj : WorldObject K) : BBox K :=
  let camera_pred_centre := world_to_camera ksin kcos x y th obj.centre
  let camera_pred_top_left := world_to_camera ksin kcos x y th obj.top_left
  let camera_pred_top_right := world_to_camera ksin kcos x y th obj.top_right
  let camera_pred_bottom_left := world_to_camera ksin kcos x y th obj.bottom_left
  let camera_pred_bottom_right := world_to_camera ksin kcos x y th obj.bottom_right
  let pred_left := (camera_pred_bottom_left.1 + camera_pred_top_left.1) / 2
  let pred_right := (camera_pred_bottom_right.1 + camera_pred_top_right.1) / 2
  let pred_top := (camera_pred_top_left.2 + camera_pred_top_right.2) / 2
  let pred_bottom := (camera_pred_bottom_left.2 + camera_pred_bottom_right.2) / 2
  ⟨camera_pred_centre.1, camera_pred_centre.2,
   max (pred_right - pred_left) 0, max (pred_bottom - pred_top) 0⟩

/-- `Nav.box_probability` evaluated at one pose-grid cell: clip the box to
`[-160, 160] × [-120, 120]`, form the clipped area, take the ratio
`cons_area / (w*h + cons_area)` and map it affinely into `[0.05, 0.95]`.
`torch.clip(v, min=a, max=b)` is `min (max v a) b`; `torch.nan_to_num(_,
nan=0.0)` corresponds to the exact-field convention `0 / 0 = 0` at the only
NaN this expression can produce from finite inputs. -/
def box_probability (b : BBox K) : K :=
  let cons_camera_left_x := min (max (b.cx - b.w) (-160)) 160
  let cons_camera_right_x := min (max (b.cx + b.w) (-160)) 160
  let cons_camera_bottom_y := min (max (b.cy - b.h) (-120)) 120
  let cons_camera_top_y := min (max (b.cy + b.h) (-120)) 120
  let cons_area := (cons_camera_right_x - cons_camera_left_x) *
    (cons_camera_top_y - cons_camera_bottom_y)
  let area_ratio := cons_area / (b.w * b.h + cons_area)
  0.05 * (1 - area_ratio) + 0.95 * area_ratio

/-- `self.world_dog` (lines 57-63 of `nav.py`). -/
def world_dog : WorldObject K :=
  ⟨"dog", ⟨1.5, 0, 0.27⟩, ⟨1.5, 0.11, 0.02⟩, ⟨1.5, -0.11, 0.02⟩,
   ⟨1.5, 0.11, 0.52⟩, ⟨1.5, -0.11, 0.52⟩⟩

/-- `self.world_cat` (lines 64-70 of `nav.py`); the corner points carry
`y = 1.5` while the centre has `y = -1.5`, exactly as in the source. -/
def world_cat : WorldObject K :=
  ⟨"cat", ⟨0.5, -1.5, 0.27⟩, ⟨0.5 - 0.11, 1.5, 0.02⟩, ⟨0.5 + 0.11, 1.5, 0.02⟩,
   ⟨0.5 - 0.11, 1.5, 0.52⟩, ⟨0.5 + 0.11, 1.5, 0.52⟩⟩

/-- The per-landmark precomputed data (`ObjectDetection` namedtuple):
predicted boxes and detectability, one value per cell. -/
structure ObjectDetection (K : Type) where
  bounding_boxes : Idx → BBox K
  detection_probabilities : Grid K

/-- The environment seen by the observation-likelihood code:
`self.object_list` and `self.object_dictionary`. -/
structure NavEnv (K : Type) where
  object_list : List String
  object_dictionary : String → ObjectDetection K

/-- The grid of predicted boxes of one landmark (`self.world_to_bbox(obj)`
evaluated over the whole pose lattice). -/
def bbox_grid (ksin kcos : K → K) (kpi : K) (obj : WorldObject K) : Idx → BBox K :=
  fun c => world_to_bbox ksin kcos (world_x_at c) (world_y_at c) (world_theta_at kpi c) obj

/-- One entry of `self.object_dictionary`: boxes plus
`self.box_probability(boxes)`. -/
def object_detection_of (ksin kcos : K → K) (kpi : K) (obj : WorldObject K) : ObjectDetection K :=
  ⟨bbox_grid ksin kcos kpi obj, fun c => box_probability (bbox_grid ksin kcos kpi obj c)⟩

/-- The environment built in `Nav.__init__`:
`object_list = ["dog", "cat"]` (Python dict order) and the dictionary mapping
each name to its precomputed `ObjectDetection`; only the keys "dog" and "cat"
are ever looked up. -/
def nav_env (ksin kcos : K → K) (kpi : K) : NavEnv K :=
  ⟨["dog", "cat"],
   fun name => if name = "dog" then object_detection_of ksin kcos kpi world_dog
               else object_detection_of ksin kcos kpi world_cat⟩

/-- Helper: the ratio `a / (wh + a)` lies in `[0, 1]` for nonnegative inputs
(including the degenerate `0 / 0 = 0` case). -/
lemma area_ratio_bounds (wh a : K) (hwh : 0 ≤ wh) (hA : 0 ≤ a) :
    0 ≤ a / (wh + a) ∧ a / (wh + a) ≤ 1 := by
  rcases eq_or_lt_of_le (by linarith : (0 : K) ≤ wh + a) with h | h
  · rw [← h, div_zero]
    norm_num
  · refine ⟨by positivity, ?_⟩
    rw [div_le_one h]
    linarith

/-- Helper: `box_probability` lands in `[0.05, 0.95]` whenever the box has
nonnegative width and height. -/
lemma box_probability_bounds (b : BBox K) (hw : 0 ≤ b.w) (hh : 0 ≤ b.h) :
    0.05 ≤ box_probability b ∧ box_probability b ≤ 0.95 := by
  have h1 : b.cx - b.w ≤ b.cx + b.w := by linarith
  have h2 : b.cy - b.h ≤ b.cy + b.h := by linarith
  have hL : min (max (b.cx - b.w) (-160 : K)) 160 ≤ min (max (b.cx + b.w) (-160)) 160 :=
    min_le_min (max_le_max h1 le_rfl) le_rfl
  have hB : min (max (b.cy - b.h) (-120 : K)) 120 ≤ min (max (b.cy + b.h) (-120)) 120 :=
    min_le_min (max_le_max h2 le_rfl) le_rfl
  have hA : 0 ≤ (min (max (b.cx + b.w) (-160 : K)) 160 - min (max (b.cx - b.w) (-160)) 160) *
      (min (max (b.cy + b.h) (-120)) 120 - min (max (b.cy - b.h) (-120)) 120) :=
    mul_nonneg (by linarith) (by linarith)
  have hwh : 0 ≤ b.w * b.h := mul_nonneg hw hh
  obtain ⟨hf0, hf1⟩ := area_ratio_bounds (b.w * b.h) _ hwh hA
  unfold box_probability
  constructor <;> linarith

/-- Helper: `world_to_bbox` always produces nonnegative width and height,
thanks to the final `torch.clip(_, min=0.0)`. -/
lemma world_to_bbox_dims_nonneg (ksin kcos : K → K) (x y th : K) (obj : WorldObject K) :
    0 ≤ (world_to_bbox ksin kcos x y th obj).w ∧
      0 ≤ (world_to_bbox ksin kcos x y th obj).h := by
  unfold world_to_bbox
  exact ⟨le_max_right _ _, le_max_right _ _⟩

/-- Helper: the detectability of any landmark box at any cell lies in
`[0.05, 0.95]`, uniformly in the trigonometric parameters. -/
lemma box_probability_world_to_bbox_bounds (ksin kcos : K → K) (x y th : K)
    (obj : WorldObject K) :
    0.05 ≤ box_probability (world_to_bbox ksin kcos x y th obj) ∧
      box_probability (world_to_bbox ksin kcos x y th obj) ≤ 0.95 := by
  obtain ⟨hw, hh⟩ := world_to_bbox_dims_nonneg ksin kcos x y th obj
  exact box_probability_bounds _ hw hh

/-- Log-density of a normal distribution with standard deviation `sigma` at
observation `x`, as computed by
`torch.distributions.normal.Normal(mu, sigma).log_prob(x)`:
`-(x - mu)^2 / (2 sigma^2) - log sigma - log(2 π) / 2`.  `klog` stands for the
real logarithm and `kpi` for `π`. -/
def normal_log_prob (klog : K → K) (kpi : K) (sigma mu x : K) : K :=
  -((x - mu) ^ 2) / (2 * sigma ^ 2) - klog sigma - klog (2 * kpi) / 2

/-- The accumulated log-likelihood `res = res1 + res2 + res3 + res4` of
`Nav.prob_map`: four independent Gaussians of scale `25` on the predicted
centre-x, width, height and centre-y against the detection box. -/
def prob_map_res (klog : K → K) (kpi : K) (bbox : BBox K) (boxes : Idx → BBox K) : Grid K :=
  fun c =>
    normal_log_prob klog kpi 25 (boxes c).cx bbox.cx
      + normal_log_prob klog kpi 25 (boxes c).w bbox.w
      + normal_log_prob klog kpi 25 (boxes c).h bbox.h
      + normal_log_prob klog kpi 25 (boxes c).cy bbox.cy

/-- `Nav.prob_map`: normalize the log-likelihood by subtracting its
log-sum-exp over all grid cells (`torch.logsumexp(res, dim=[0,1,2])` is
`log (Σ_c exp (res c))`) and exponentiate. -/
def prob_map (kexp klog : K → K) (kpi : K) (bbox : BBox K) (boxes : Idx → BBox K) : Grid K :=
  fun c =>
    kexp (prob_map_res klog kpi bbox boxes c
      - klog (∑ cc : Idx, kexp (prob_map_res klog kpi bbox boxes cc)))

/-- C3: with the real exponential and logarithm, the per-detection
per-landmark box likelihood grid returned by `prob_map` is nonnegative at
every cell and sums to `1` over the whole pose grid, for every detection box
and every predicted-box grid (hence for both landmarks). -/
theorem prob_map_is_probability (bbox : BBox ℝ) (boxes : Idx → BBox ℝ) :
    (∀ c : Idx, 0 ≤ prob_map Real.exp Real.log Real.pi bbox boxes c) ∧
      gridSum (prob_map Real.exp Real.log Real.pi bbox boxes) = 1 := by
  have hS : 0 < ∑ cc : Idx, Real.exp (prob_map_res Real.log Real.pi bbox boxes cc) :=
    Finset.sum_pos (fun c _ => Real.exp_pos _) Finset.univ_nonempty
  constructor
  · exact fun c => (Real.exp_pos _).le
  · unfold gridSum prob_map
    have : ∀ c : Idx,
        Real.exp (prob_map_res Real.log Real.pi bbox boxes c
          - Real.log (∑ cc : Idx, Real.exp (prob_map_res Real.log Real.pi bbox boxes cc)))
          = Real.exp (prob_map_res Real.log Real.pi bbox boxes c)
            / (∑ cc : Idx, Real.exp (prob_map_res Real.log Real.pi bbox boxes cc)) := by
      intro c
      rw [Real.exp_sub, Real.exp_log hS]
    rw [Finset.sum_congr rfl (fun c _ => this c), ← Finset.sum_div]
    exact div_self (ne_of_gt hS)

/-- A detection received from the external detector; `class_id` embeds
`detection.results[0].hypothesis.class_id` and `bbox` embeds the
`detection.bbox` fields used by `prob_map`. -/
structure Det (K : Type) where
  class_id : String
  bbox : BBox K

/-- `prob_dist_random = 0.05 * 0.01 * 0.01 * 0.01 * 0.01` from
`Nav.probmessage_cond_a`: the "all detections are spurious" baseline. -/
def prob_dist_random : K := 0.05 * 0.01 * 0.01 * 0.01 * 0.01

/-- The empty string used as the (never reached) default of a list lookup. -/
def no_name : String := ""

/-- The body of the assignment loop of `Nav.probmessage_cond_a` for one
proposal index `p` and one detection `d`: the grid-normalized box likelihood
of `d` against landmark `object_list[p]`, zeroed when the class does not
match (the source multiplies the grid by `0.0`). -/
def prob_assignment (kexp klog : K → K) (kpi : K) (env : NavEnv K) (p : ℕ) (d : Det K) :
    Grid K :=
  let proposal_name := env.object_list.getD p no_name
  let pa := prob_map kexp klog kpi d.bbox (env.object_dictionary proposal_name).bounding_boxes
  if proposal_name ≠ d.class_id then fun c => pa c * 0 else pa

/-- `Nav.probmessage_cond_a`: recursion over the proposal list.  With no
proposals the result is `prob_dist_random ** len(detections)` at every cell;
otherwise the head proposal is assigned to every detection in turn
(`rem_detections = detections[:i] + detections[i+1:]` is `eraseIdx`), the
remaining detections recurse on the remaining proposals, and each
contribution is divided by `len(detections)`.  The source's parameter order
is `(detections_msg, proposals)`; the two arguments are swapped here so that
the recursion is structural on the proposal list. -/
def probmessage_cond_a (kexp klog : K → K) (kpi : K) (env : NavEnv K) :
    List ℕ → List (Det K) → Grid K
  | [] => fun D _ => prob_dist_random ^ D.length
  | p :: ps => fun D c =>
      ∑ i : Fin D.length,
        prob_assignment kexp klog kpi env p (D.get i) c
          * probmessage_cond_a kexp klog kpi env ps (D.eraseIdx i) c
          / (D.length : K)

/-- `list(itertools.product([False, True], repeat=2))` in its Python order. -/
def comb : List (List Bool) := [[false, false], [false, true], [true, false], [true, true]]

/-- `[i for i, x in enumerate(assignment) if x]`: the indices of the
landmarks included in a subset assignment. -/
def true_indices (assignment : List Bool) : List ℕ :=
  (assignment.enum.filter (fun q => q.2)).map (fun q => q.1)

/-- The subset weight actually computed by the inner loop of
`Nav.probmessage`.  The source tests `idx == False`, which in Python compares
the integer loop index with a boolean and holds exactly when `idx` is `0`, so
the factor for landmark 0 is always `1 - detectability` and the factor for
landmark 1 is always `detectability`, independent of the subset
`assignment`. -/
def assignment_probs (env : NavEnv K) (assignment : List Bool) : Grid K :=
  fun c =>
    (List.range assignment.length).foldl
      (fun probs idx =>
        if idx = 0 then
          probs * (1 - (env.object_dictionary
            (env.object_list.getD idx no_name)).detection_probabilities c)
        else
          probs * (env.object_dictionary
            (env.object_list.getD idx no_name)).detection_probabilities c)
      1

/-- `Nav.probmessage`: sum over the four subset assignments of the
conditional likelihood times the (degenerate, see `assignment_probs`) subset
weight. -/
def probmessage (kexp klog : K → K) (kpi : K) (env : NavEnv K) (D : List (Det K)) : Grid K :=
  fun c =>
    comb.foldl
      (fun s assignment =>
        s + probmessage_cond_a kexp klog kpi env (true_indices assignment) D c
          * assignment_probs env assignment c)
      0

/-- Modelled from the spec's words (the claim's subset marginal): the weight
of a subset `A` is `∏_{j ∈ A} detectability_j * ∏_{j ∉ A} (1 -
detectability_j)`, i.e. the loop factor follows `assignment[idx]` instead of
`idx == False`.  Used only to compare the source's `probmessage` with the
claimed formula. -/
def spec_assignment_probs (env : NavEnv K) (assignment : List Bool) : Grid K :=
  fun c =>
    (List.range assignment.length).foldl
      (fun probs idx =>
        if assignment.getD idx false then
          probs * (env.object_dictionary
            (env.object_list.getD idx no_name)).detection_probabilities c
        else
          probs * (1 - (env.object_dictionary
            (env.object_list.getD idx no_name)).detection_probabilities c))
      1

/-- Modelled from the spec's words: the subset marginal
`p(D | pose) = Σ_{A ⊆ L} p(A | pose) p(D | A, pose)` with the intended
subset weights `spec_assignment_probs`. -/
def probmessage_spec (kexp klog : K → K) (kpi : K) (env : NavEnv K) (D : List (Det K)) :
    Grid K :=
  fun c =>
    comb.foldl
      (fun s assignment =>
        s + probmessage_cond_a kexp klog kpi env (true_indices assignment) D c
          * spec_assignment_probs env assignment c)
      0

/-- C4: for any world point `P` and any pose with yaw `0` located at
`(P.x - d, P.y)` with `d > 0` (the point directly ahead of the robot),
`world_to_camera` returns `u = 160` and `v = 120 - f_y * (P.z - world_z) / d`.
This covers in particular every pose-grid cell with those coordinates. -/
theorem world_to_camera_straight_ahead (p : WorldPoint ℝ) (d : ℝ) (hd : 0 < d) :
    world_to_camera Real.sin Real.cos (p.x - d) p.y 0 p =
      (160, 120 - (f_y : ℝ) * (p.z - world_z) / d) := by
  have hd' : d ≠ 0 := ne_of_gt hd
  unfold world_to_camera
  simp only [Real.sin_zero, Real.cos_zero]
  refine Prod.ext ?_ ?_
  · show 160 + (f_x : ℝ) * -(1 * (p.y - p.y) - 0 * (p.x - (p.x - d))) /
        (0 * (p.y - p.y) + 1 * (p.x - (p.x - d))) = 160
    have : (1 : ℝ) * (p.y - p.y) - 0 * (p.x - (p.x - d)) = 0 := by ring
    rw [this]
    rw [show (0 : ℝ) * (p.y - p.y) + 1 * (p.x - (p.x - d)) = d by ring]
    simp
  · show 120 + (f_y : ℝ) * -(p.z - world_z) /
        (0 * (p.y - p.y) + 1 * (p.x - (p.x - d))) = 120 - (f_y : ℝ) * (p.z - world_z) / d
    rw [show (0 : ℝ) * (p.y - p.y) + 1 * (p.x - (p.x - d)) = d by ring]
    field_simp
    ring

/-- Witness for C4 at the dog's centre seen from the origin-adjacent pose
`(0.5, 0, 0)` with `d = 1`. -/
theorem world_to_camera_straight_ahead_witness :
    (0 : ℝ) < 1 ∧
      world_to_camera Real.sin Real.cos ((1.5 : ℝ) - 1) 0 0 ⟨1.5, 0, 0.27⟩ =
        (160, 120 - (f_y : ℝ) * ((0.27 : ℝ) - world_z) / 1) :=
  ⟨by norm_num, world_to_camera_straight_ahead ⟨1.5, 0, 0.27⟩ 1 (by norm_num)⟩

/-- C6: for every landmark entry of the object dictionary and every pose-grid
cell, the precomputed detectability lies between `0.05` and `1.00`
inclusive, uniformly in the trigonometric parameters (so in particular for
the real `sin`, `cos` and `π`); cells whose projection degenerates are
covered because the bound does not depend on the projected values. -/
theorem detection_probabilities_bounds (ksin kcos : K → K) (kpi : K)
    (name : String) (c : Idx) :
    0.05 ≤ ((nav_env ksin kcos kpi).object_dictionary name).detection_probabilities c ∧
      ((nav_env ksin kcos kpi).object_dictionary name).detection_probabilities c ≤ 1 := by
  unfold nav_env object_detection_of
  by_cases h : name = "dog" <;>
    simp only [h, if_true, if_false, reduceIte] <;>
    first
    | exact ⟨(box_probability_world_to_bbox_bounds _ _ _ _ _ _).1,
        le_trans (box_probability_world_to_bbox_bounds _ _ _ _ _ _).2 (by norm_num)⟩

/-- Helper for the permutation invariance of `probmessage_cond_a`: the sum
over all ways to remove one element of a list, weighting the removed element
by `f` and the remaining list by `g`, written with an accumulator-style `g`
so that recursion exposes the head. -/
def remSum {α : Type} (f : α → K) (g : List α → K) : List α → K
  | [] => 0
  | d :: ds => f d * g ds + remSum f (fun l => g (d :: l)) ds

/-- Helper: `remSum` only uses `g` pointwise. -/
lemma remSum_congr {α : Type} (f : α → K) :
    ∀ (L : List α) (g₁ g₂ : List α → K), (∀ l, g₁ l = g₂ l) →
      remSum f g₁ L = remSum f g₂ L
  | [], _, _, _ => rfl
  | d :: ds, g₁, g₂, hg => by
      rw [remSum, remSum, hg ds,
        remSum_congr f ds (fun l => g₁ (d :: l)) (fun l => g₂ (d :: l)) (fun l => hg (d :: l))]

/-- Helper: `remSum` computes the sum over all single-element removals. -/
lemma remSum_eq_sum {α : Type} (f : α → K) :
    ∀ (L : List α) (g : List α → K),
      remSum f g L = ∑ i : Fin L.length, f (L.get i) * g (L.eraseIdx i)
  | [], g => by simp [remSum]
  | d :: ds, g => by
      rw [remSum, remSum_eq_sum f ds (fun l => g (d :: l))]
      simp only [List.length_cons]
      rw [Fin.sum_univ_succ]
      simp

/-- Helper: `remSum` is invariant under permutations of the list provided the
remainder functional is itself permutation invariant. -/
lemma remSum_perm {α : Type} (f : α → K) {L L' : List α} (h : L.Perm L') :
    ∀ g : List α → K, (∀ l l', l.Perm l' → g l = g l') →
      remSum f g L = remSum f g L' := by
  induction h with
  | nil => intro g hg; rfl
  | cons x h ih =>
      intro g hg
      simp only [remSum]
      rw [hg _ _ h, ih (fun l => g (x :: l)) (fun l l' hll => hg _ _ (hll.cons x))]
  | swap x y l =>
      intro g hg
      simp only [remSum]
      rw [remSum_congr f l (fun t => g (y :: x :: t)) (fun t => g (x :: y :: t))
        (fun t => hg _ _ (List.Perm.swap x y t))]
      ring
  | trans h₁ h₂ ih₁ ih₂ =>
      intro g hg
      exact (ih₁ g hg).trans (ih₂ g hg)

/-- Helper: the conditional data-association likelihood only depends on the
multiset of detections. -/
lemma probmessage_cond_a_perm (kexp klog : K → K) (kpi : K) (env : NavEnv K) :
    ∀ (ps : List ℕ) {D D' : List (Det K)}, D.Perm D' → ∀ c : Idx,
      probmessage_cond_a kexp klog kpi env ps D c
        = probmessage_cond_a kexp klog kpi env ps D' c := by
  intro ps
  induction ps with
  | nil =>
      intro D D' h c
      simp [probmessage_cond_a, h.length_eq]
  | cons p ps ih =>
      intro D D' h c
      have key : ∀ L : List (Det K),
          probmessage_cond_a kexp klog kpi env (p :: ps) L c
            = remSum (fun d => prob_assignment kexp klog kpi env p d c)
                (fun l => probmessage_cond_a kexp klog kpi env ps l c) L / (L.length : K) := by
        intro L
        simp only [probmessage_cond_a, remSum_eq_sum, ← Finset.sum_div]
      rw [key D, key D', h.length_eq,
        remSum_perm _ h _ (fun l l' hll => ih hll c)]

/-- C10: the observation likelihood `probmessage` is invariant under
permutations of the detections list, at every pose-grid cell and for every
environment (in particular the one built from the dog and cat landmarks). -/
theorem probmessage_perm_invariant (kexp klog : K → K) (kpi : K) (env : NavEnv K)
    {D D' : List (Det K)} (h : D.Perm D') (c : Idx) :
    probmessage kexp klog kpi env D' c = probmessage kexp klog kpi env D c := by
  simp only [probmessage, comb, List.foldl]
  rw [← probmessage_cond_a_perm kexp klog kpi env (true_indices [false, false]) h c,
      ← probmessage_cond_a_perm kexp klog kpi env (true_indices [false, true]) h c,
      ← probmessage_cond_a_perm kexp klog kpi env (true_indices [true, false]) h c,
      ← probmessage_cond_a_perm kexp klog kpi env (true_indices [true, true]) h c]

/-- A concrete environment with constant detectability `0.9` for both
landmarks; used to evaluate the degenerate subset weights on a closed
input. -/
def const_env : NavEnv ℚ :=
  ⟨["dog", "cat"], fun _ => ⟨fun _ => ⟨0, 0, 0, 0⟩, fun _ => 0.9⟩⟩

/-- A concrete dog detection used by witnesses. -/
def det_dog_example : Det ℚ := ⟨"dog", ⟨1, 2, 3, 4⟩⟩

/-- A concrete cat detection used by witnesses. -/
def det_cat_example : Det ℚ := ⟨"cat", ⟨5, 6, 7, 8⟩⟩

/-- Witness for C10 on a concrete two-detection list over `ℚ`. -/
theorem probmessage_perm_invariant_witness :
    ([det_cat_example, det_dog_example].Perm [det_dog_example, det_cat_example]) ∧
      probmessage (fun x : ℚ => x) (fun x : ℚ => x) 0 const_env
          [det_dog_example, det_cat_example]
          (⟨0, by norm_num⟩, ⟨0, by norm_num⟩, ⟨0, by norm_num⟩)
        = probmessage (fun x : ℚ => x) (fun x : ℚ => x) 0 const_env
          [det_cat_example, det_dog_example]
          (⟨0, by norm_num⟩, ⟨0, by norm_num⟩, ⟨0, by norm_num⟩) :=
  ⟨List.Perm.swap det_dog_example det_cat_example [],
   probmessage_perm_invariant (fun x : ℚ => x) (fun x : ℚ => x) 0 const_env
     (List.Perm.swap det_dog_example det_cat_example []) _⟩

/-- C1: evaluation of the source's `probmessage` against the claimed subset
marginal on the failing input `detections = []`.  Because the weight loop
tests `idx == False` (true exactly when the integer index is `0`), every
subset receives the same weight `(1 - d₀) * d₁`; with both detectabilities
equal to `0.9` the source returns `0.1 * 0.9 = 0.09` while the claimed
marginal `Σ_A p(A|pose) p(D|A,pose) = (1 - 0.9) * (1 - 0.9)` is `0.01`. -/
theorem probmessage_ne_spec_marginal :
    probmessage (fun x : ℚ => x) (fun x : ℚ => x) 0 const_env []
        (⟨0, by norm_num⟩, ⟨0, by norm_num⟩, ⟨0, by norm_num⟩) = 0.09 ∧
      probmessage_spec (fun x : ℚ => x) (fun x : ℚ => x) 0 const_env []
        (⟨0, by norm_num⟩, ⟨0, by norm_num⟩, ⟨0, by norm_num⟩) = 0.01 := by
  have h00 : true_indices [false, false] = [] := by decide
  have h01 : true_indices [false, true] = [1] := by decide
  have h10 : true_indices [true, false] = [0] := by decide
  have h11 : true_indices [true, true] = [0, 1] := by decide
  have hr : List.range 2 = [0, 1] := by decide
  constructor <;>
  · simp only [probmessage, probmessage_spec, comb, List.foldl, h00, h01, h10, h11]
    simp only [probmessage_cond_a, List.length_nil, Finset.univ_eq_empty, Finset.sum_empty,
      pow_zero, assignment_probs, spec_assignment_probs, const_env, List.length_cons,
      List.length_nil, hr, List.getD]
    norm_num

/-- `Nav.set_uniform_pose_map`: the uniform belief
`zeros + 1 / (101 * 101 * 128)`. -/
def set_uniform_pose_map : Grid K :=
  fun _ => 1 / ((num_grid_cells : K) * (num_grid_cells : K) * (num_orientation_cells : K))

/-- `Nav.set_center_pose_map`: a delta at cell
`(int(101/2), int(101/2), 0) = (50, 50, 0)`. -/
def set_center_pose_map : Grid K :=
  fun c => if c = (⟨50, by norm_num⟩, ⟨50, by norm_num⟩, ⟨0, by norm_num⟩) then 1 else 0

/-- An odometry sample after the (external) quaternion-to-yaw extraction:
the planar position and the yaw angle. -/
structure OdomMsg (K : Type) where
  position : K × K
  yaw : K

/-- The mutable filter state of the `Nav` node: the belief grid, the last
odometry sample (`last_inertial_position` and `last_inertial_orientation`
are set together and are both absent before the first processed odometry),
the `self.state` flag (0 = fresh, 1 = aligned) and the most recent
detections list (`None` before the first detections message). -/
structure NavState (K : Type) where
  current_probability_map : Grid K
  last_inertial : Option ((K × K) × K)
  state : ℕ
  detections : Option (List (Det K))

/-- The state after `Nav.__init__`: uniform belief, no odometry yet,
`state = 0`, no detections yet. -/
def init_state : NavState K := ⟨set_uniform_pose_map, none, 0, none⟩

/-- The grid transformation of `Nav.inertial_update` (lines 273-284):
per-yaw-slice cubic-spline shift and rotation of the 11x11 position kernel
(`scipy.ndimage.shift` / `scipy.ndimage.rotate`), same-size convolution with
each belief slice (`torch.nn.functional.conv2d`), then a fractional wrapped
shift along the yaw axis.  These are external library numerics; the grid
output is taken as an uninterpreted parameter of the embedding.  No claim
depends on its values: the moving flag (lines 285-288) is embedded exactly
in `inertial_update`. -/
abbrev MotionModel (K : Type) : Type := (K × K) → (K × K) → K → K → Grid K → Grid K

/-- `Nav.inertial_update`: compute the odometry deltas, obtain the motion
predicted grid, and report `moving` iff the position difference has norm
greater than `0.001` or the yaw difference exceeds `0.001` in absolute
value.  The source compares `‖Δpos‖ > 0.001` with the Euclidean norm; here
the equivalent squared comparison is used so the definition stays inside the
field `K` (the equivalence with the square-root form is proved in
`inertial_update_moving_iff`). -/
def inertial_update (motion : MotionModel K) (last_inertial_position current_inertial_position : K × K)
    (last_inertial_orientation current_inertial_orientation : K) (m : Grid K) :
    Bool × Grid K :=
  let dx := current_inertial_position.1 - last_inertial_position.1
  let dy := current_inertial_position.2 - last_inertial_position.2
  let inertial_orientation_difference := current_inertial_orientation - last_inertial_orientation
  let s := motion last_inertial_position current_inertial_position
    last_inertial_orientation current_inertial_orientation m
  if (0.001 : K) ^ 2 < dx ^ 2 + dy ^ 2 ∨ (0.001 : K) < |inertial_orientation_difference| then
    (true, s)
  else
    (false, s)

/-- Helper: the universe of pose-grid cells is nonempty. -/
lemma univ_nonempty_idx : (Finset.univ : Finset Idx).Nonempty := Finset.univ_nonempty

/-- `torch.max(pose_probability_map)`: the maximum over all cells. -/
def gridMax (m : Grid K) : K := Finset.univ.sup' univ_nonempty_idx m

/-- Helper: the set of cells attaining the maximum is nonempty. -/
lemma gridMax_filter_nonempty (m : Grid K) :
    (Finset.univ.filter (fun c => m c = gridMax m)).Nonempty := by
  obtain ⟨c, _, hc⟩ := Finset.exists_mem_eq_sup' univ_nonempty_idx m
  exact ⟨c, Finset.mem_filter.2 ⟨Finset.mem_univ _, hc.symm⟩⟩

/-- The row-major flattening of a cell index, i.e. the order in which
`torch.nonzero` enumerates a `[101, 101, 128]` tensor. -/
def idxFlat (c : Idx) : ℕ := (c.1.val * 101 + c.2.1.val) * 128 + c.2.2.val

/-- The flattened position of `(map == map.max()).nonzero()[0]`: the
row-major-first cell attaining the maximum. -/
def mleFlat (m : Grid K) : ℕ :=
  (Finset.univ.filter (fun c => m c = gridMax m)).inf' (gridMax_filter_nonempty m) idxFlat

/-- `torch.max` over the yaw axis at a fixed `(iy, ix)` cell. -/
def rowMax (m : Grid K) (iy ix : Fin 101) : K :=
  Finset.univ.sup' Finset.univ_nonempty (fun t : Fin 128 => m (iy, ix, t))

/-- Helper: the set of yaw indices attaining the row maximum is nonempty. -/
lemma rowMax_filter_nonempty (m : Grid K) (iy ix : Fin 101) :
    (Finset.univ.filter (fun t : Fin 128 => m (iy, ix, t) = rowMax m iy ix)).Nonempty := by
  obtain ⟨t, _, ht⟩ :=
    Finset.exists_mem_eq_sup' Finset.univ_nonempty (fun t : Fin 128 => m (iy, ix, t))
  exact ⟨t, Finset.mem_filter.2 ⟨Finset.mem_univ _, ht.symm⟩⟩

/-- `pose_probability_map[loc[0], loc[1]].argmax()`: the first yaw index
attaining the maximum of the yaw slice (`torch.argmax` returns the index of
the first maximal value). -/
def rowArgmax (m : Grid K) (iy ix : Fin 101) : Fin 128 :=
  (Finset.univ.filter (fun t : Fin 128 => m (iy, ix, t) = rowMax m iy ix)).min'
    (rowMax_filter_nonempty m iy ix)

/-- Decode a row-major flattened position back into a cell index; inverse of
`idxFlat` (see `unflatten_idxFlat`). -/
def unflatten (n : ℕ) : Idx :=
  (⟨n / 128 / 101 % 101, Nat.mod_lt _ (by norm_num)⟩,
   ⟨n / 128 % 101, Nat.mod_lt _ (by norm_num)⟩,
   ⟨n % 128, Nat.mod_lt _ (by norm_num)⟩)

/-- Helper: `unflatten` inverts `idxFlat`. -/
lemma unflatten_idxFlat (c : Idx) : unflatten (idxFlat c) = c := by
  obtain ⟨a, b, t⟩ := c
  have ha := a.isLt
  have hb := b.isLt
  have ht := t.isLt
  simp only [unflatten, idxFlat, Prod.mk.injEq]
  refine ⟨Fin.ext ?_, Fin.ext ?_, Fin.ext ?_⟩ <;> simp <;> omega

/-- `Nav.get_location_MLE`: `loc = (map == map.max()).nonzero()[0]` is the
row-major-first maximal triple, of which only `loc[0]` and `loc[1]` are
used; the yaw index is recomputed as `map[loc[0], loc[1]].argmax()`. -/
def get_location_MLE (m : Grid K) : (Fin 101 × Fin 101) × Fin 128 :=
  let loc := unflatten (mleFlat m)
  ((loc.1, loc.2.1), rowArgmax m loc.1 loc.2.1)

/-- The planar pose published by `Nav.publish_pose_msg` (the yaw-only
quaternion encoding through `scipy` is external and not modelled). -/
structure PlanarPose (K : Type) where
  x : K
  y : K
  yaw : K

/-- `Nav.publish_pose_msg`:
`x = origin_x + loc[1] * cell_size`,
`y = origin_y + grid_length - loc[0] * cell_size`,
`yaw = (orientation / 128) * 2 * 3.141` (the source hardcodes `3.141`
here rather than using `math.pi`). -/
def publish_pose_msg (m : Grid K) : PlanarPose K :=
  let loc_orientation := get_location_MLE m
  ⟨grid_cells_origin_x + (loc_orientation.1.2.val : K) * world_cell_size,
   grid_cells_origin_y + world_grid_length - (loc_orientation.1.1.val : K) * world_cell_size,
   ((loc_orientation.2.val : K) / (num_orientation_cells : K)) * 2 * 3.141⟩

/-- The branch of `Nav.pose_callback` that selects the new (pre-clip)
belief and the new `self.state` flag once both detections and a previous
odometry sample exist: on motion take the motion prediction and reset the
flag; when stationary and fresh fuse motion and observation pointwise and
set the flag; otherwise leave belief and flag unchanged. -/
def branch_step (kexp klog : K → K) (kpi : K) (env : NavEnv K) (motion : MotionModel K)
    (msg : OdomMsg K) (s : NavState K) (dets : List (Det K)) (lp : K × K) (ly : K) :
    Grid K × ℕ :=
  let pose_from_detections := probmessage kexp klog kpi env dets
  let mi := inertial_update motion lp msg.position ly msg.yaw s.current_probability_map
  if mi.1 then (mi.2, 0)
  else if s.state = 0 then (fun c => mi.2 c * pose_from_detections c, 1)
  else (s.current_probability_map, s.state)

/-- `Nav.pose_callback`: ignore odometry until a detections message has
arrived; on the first processed odometry write the centred delta, record the
odometry, overwrite the belief with the observation likelihood and return
(publishing nothing); afterwards run `branch_step`, clamp negatives to zero
(`torch.clip(_, min=0.0)`), divide by the sum, and publish.  Only the pose
output is modelled; the occupancy-grid publisher formats the same belief for
an external consumer. -/
def pose_callback (kexp klog : K → K) (kpi : K) (env : NavEnv K) (motion : MotionModel K)
    (msg : OdomMsg K) (s : NavState K) : NavState K × Option (PlanarPose K) :=
  match s.detections with
  | none => (s, none)
  | some dets =>
    match s.last_inertial with
    | none =>
        -- `set_center_pose_map` is written and immediately overwritten by
        -- the observation likelihood (lines 299 and 302); the callback
        -- returns before the clip/renormalize of lines 318-319.
        (⟨probmessage kexp klog kpi env dets, some (msg.position, msg.yaw), s.state,
          s.detections⟩, none)
    | some li =>
        let bs := branch_step kexp klog kpi env motion msg s dets li.1 li.2
        let clipped : Grid K := fun c => max (bs.1 c) 0
        let normalized : Grid K := fun c => clipped c / gridSum clipped
        (⟨normalized, some (msg.position, msg.yaw), bs.2, s.detections⟩,
         some (publish_pose_msg normalized))

/-- C5: the `moving` flag returned by `inertial_update` is `true` exactly
when the Euclidean norm of the position difference exceeds `0.001` metres or
the absolute yaw difference exceeds `0.001` radians. -/
theorem inertial_update_moving_iff (motion : MotionModel ℝ) (lp cp : ℝ × ℝ) (ly cy : ℝ)
    (m : Grid ℝ) :
    (inertial_update motion lp cp ly cy m).1 = true ↔
      (0.001 : ℝ) < Real.sqrt ((cp.1 - lp.1) ^ 2 + (cp.2 - lp.2) ^ 2) ∨
        (0.001 : ℝ) < |cy - ly| := by
  have hnn : (0 : ℝ) ≤ (cp.1 - lp.1) ^ 2 + (cp.2 - lp.2) ^ 2 := by positivity
  have key : (0.001 : ℝ) < Real.sqrt ((cp.1 - lp.1) ^ 2 + (cp.2 - lp.2) ^ 2) ↔
      (0.001 : ℝ) ^ 2 < (cp.1 - lp.1) ^ 2 + (cp.2 - lp.2) ^ 2 :=
    Real.lt_sqrt (by norm_num)
  have lhs_eq : (inertial_update motion lp cp ly cy m).1 = true ↔
      ((0.001 : ℝ) ^ 2 < (cp.1 - lp.1) ^ 2 + (cp.2 - lp.2) ^ 2 ∨ (0.001 : ℝ) < |cy - ly|) := by
    by_cases h : (0.001 : ℝ) ^ 2 < (cp.1 - lp.1) ^ 2 + (cp.2 - lp.2) ^ 2 ∨
        (0.001 : ℝ) < |cy - ly|
    · simp [inertial_update, h]
    · simp [inertial_update, h]
  rw [lhs_eq]
  exact or_congr key.symm Iff.rfl

/-- C8: when an odometry message arrives before any detections message, the
callback returns the state unchanged and publishes nothing; moreover the
initial belief (the one such a state still carries) is the uniform
distribution. -/
theorem pose_callback_skips_without_detections (kexp klog : K → K) (kpi : K)
    (env : NavEnv K) (motion : MotionModel K) (msg : OdomMsg K) (s : NavState K)
    (h : s.detections = none) :
    pose_callback kexp klog kpi env motion msg s = (s, none) ∧
      ∀ c : Idx, (init_state : NavState K).current_probability_map c
        = 1 / (101 * 101 * 128) := by
  constructor
  · obtain ⟨m, li, st, ds⟩ := s
    cases h
    rfl
  · intro c
    norm_num [init_state, set_uniform_pose_map, num_grid_cells, num_orientation_cells]

/-- Witness for C8 at the freshly initialised state. -/
theorem pose_callback_skips_without_detections_witness :
    (init_state : NavState ℚ).detections = none ∧
      (pose_callback (fun x : ℚ => x) (fun x : ℚ => x) 0 const_env
          (fun _ _ _ _ _ => fun _ => 0) ⟨(0, 0), 0⟩ init_state = (init_state, none) ∧
        ∀ c : Idx, (init_state : NavState ℚ).current_probability_map c
          = 1 / (101 * 101 * 128)) :=
  ⟨rfl, pose_callback_skips_without_detections (fun x : ℚ => x) (fun x : ℚ => x) 0 const_env
    (fun _ _ _ _ _ => fun _ => 0) ⟨(0, 0), 0⟩ init_state rfl⟩

/-- Helper: once both detections and a previous odometry sample exist, the
belief after `pose_callback` is the clipped branch result divided by its
sum. -/
lemma pose_callback_map_eq (kexp klog : K → K) (kpi : K) (env : NavEnv K)
    (motion : MotionModel K) (msg : OdomMsg K) (s : NavState K) (dets : List (Det K))
    (li : (K × K) × K) (hdet : s.detections = some dets) (hli : s.last_inertial = some li) :
    (pose_callback kexp klog kpi env motion msg s).1.current_probability_map
      = fun c => max ((branch_step kexp klog kpi env motion msg s dets li.1 li.2).1 c) 0
          / gridSum (fun cc =>
              max ((branch_step kexp klog kpi env motion msg s dets li.1 li.2).1 cc) 0) := by
  simp only [pose_callback, hdet, hli]

/-- C2 (amended): whenever the odometry callback reaches the final
clamp-and-renormalize (both detections and a previous odometry sample are
present) and the clipped belief has positive sum, the resulting belief is
nonnegative at every cell and sums to exactly `1`.  The first-odometry
initialization returns before this normalization; see
`pose_callback_first_update_not_normalized`. -/
theorem pose_callback_normalizes (kexp klog : K → K) (kpi : K) (env : NavEnv K)
    (motion : MotionModel K) (msg : OdomMsg K) (s : NavState K) (dets : List (Det K))
    (li : (K × K) × K) (hdet : s.detections = some dets) (hli : s.last_inertial = some li)
    (hpos : 0 < gridSum (fun c =>
      max ((branch_step kexp klog kpi env motion msg s dets li.1 li.2).1 c) 0)) :
    gridSum ((pose_callback kexp klog kpi env motion msg s).1.current_probability_map) = 1 ∧
      ∀ c : Idx,
        0 ≤ (pose_callback kexp klog kpi env motion msg s).1.current_probability_map c := by
  rw [pose_callback_map_eq kexp klog kpi env motion msg s dets li hdet hli]
  constructor
  · simp only [gridSum, ← Finset.sum_div]
    exact div_self (ne_of_gt hpos)
  · intro c
    exact div_nonneg (le_max_right _ _) (le_of_lt hpos)

/-- A motion model whose predicted grid is identically `1`; a stand-in for
the uninterpreted scipy computation in witnesses. -/
def motion_one : MotionModel ℚ := fun _ _ _ _ _ => fun _ => 1

/-- A motion model whose predicted grid is identically `0`: this is what the
scipy kernel pipeline produces when the robot displacement exceeds the 11x11
kernel support (the shifted kernel is all zeros). -/
def motion_zero : MotionModel ℚ := fun _ _ _ _ _ => fun _ => 0

/-- A filter state with an empty detections list recorded and a previous
odometry sample at the origin. -/
def state_ready : NavState ℚ := ⟨set_uniform_pose_map, some ((0, 0), 0), 0, some []⟩

/-- An odometry message one metre ahead of the recorded sample. -/
def msg_move : OdomMsg ℚ := ⟨(1, 0), 0⟩

/-- Witness for C2 (amended) at a concrete moving update. -/
theorem pose_callback_normalizes_witness :
    (state_ready.detections = some ([] : List (Det ℚ)) ∧
      state_ready.last_inertial = some ((0, 0), 0) ∧
      0 < gridSum (fun c =>
        max ((branch_step (fun x : ℚ => x) (fun x : ℚ => x) 0 const_env motion_one msg_move
          state_ready [] ((0, 0) : ℚ × ℚ) (0 : ℚ)).1 c) 0)) ∧
      (gridSum ((pose_callback (fun x : ℚ => x) (fun x : ℚ => x) 0 const_env motion_one
          msg_move state_ready).1.current_probability_map) = 1 ∧
        ∀ c : Idx, 0 ≤ (pose_callback (fun x : ℚ => x) (fun x : ℚ => x) 0 const_env motion_one
          msg_move state_ready).1.current_probability_map c) := by
  have hbs : (branch_step (fun x : ℚ => x) (fun x : ℚ => x) 0 const_env motion_one msg_move
      state_ready [] ((0, 0) : ℚ × ℚ) (0 : ℚ)).1 = fun _ => (1 : ℚ) := by
    norm_num [branch_step, inertial_update, msg_move, state_ready]
    rfl
  have hpos : 0 < gridSum (fun c =>
      max ((branch_step (fun x : ℚ => x) (fun x : ℚ => x) 0 const_env motion_one msg_move
        state_ready [] ((0, 0) : ℚ × ℚ) (0 : ℚ)).1 c) 0) := by
    rw [hbs]
    norm_num [gridSum, Finset.sum_const, Finset.card_univ]
  exact ⟨⟨rfl, rfl, hpos⟩,
    pose_callback_normalizes (fun x : ℚ => x) (fun x : ℚ => x) 0 const_env motion_one
      msg_move state_ready [] ((0, 0), 0) rfl rfl hpos⟩

/-- Helper: with an empty detections list the observation likelihood reduces
to `(1 - detectability₀) * detectability₁` at every cell: only the empty
subset has a nonzero conditional likelihood (namely `1`), and every subset
carries the same degenerate weight. -/
lemma probmessage_nil_eval (kexp klog : K → K) (kpi : K) (env : NavEnv K) (c : Idx) :
    probmessage kexp klog kpi env [] c
      = (1 - (env.object_dictionary (env.object_list.getD 0 no_name)).detection_probabilities c)
        * (env.object_dictionary (env.object_list.getD 1 no_name)).detection_probabilities c := by
  have h00 : true_indices [false, false] = [] := by decide
  have h01 : true_indices [false, true] = [1] := by decide
  have h10 : true_indices [true, false] = [0] := by decide
  have h11 : true_indices [true, true] = [0, 1] := by decide
  have hr : List.range 2 = [0, 1] := by decide
  simp only [probmessage, comb, List.foldl, h00, h01, h10, h11]
  simp only [probmessage_cond_a, List.length_nil, Finset.univ_eq_empty, Finset.sum_empty,
    pow_zero, assignment_probs, List.length_cons, List.length_nil, hr, List.foldl, reduceIte,
    one_ne_zero]
  ring

/-- Helper: for the real landmark environment the observation likelihood of
an empty detections list sums to at least `1305728 / 400 > 1`, uniformly in
the transcendental parameters: every cell contributes at least
`0.05 * 0.05 = 1/400` by the detectability bounds. -/
lemma probmessage_nil_sum_large (ksin kcos kexp klog : K → K) (kpi : K) :
    (1305728 : K) / 400 ≤ gridSum (probmessage kexp klog kpi (nav_env ksin kcos kpi) []) := by
  have hcell : ∀ c : Idx,
      (1 : K) / 400 ≤ probmessage kexp klog kpi (nav_env ksin kcos kpi) [] c := by
    intro c
    rw [probmessage_nil_eval]
    simp only [nav_env, List.getD_cons_zero, List.getD_cons_succ]
    rw [if_pos trivial, if_neg (by decide)]
    simp only [object_detection_of, bbox_grid]
    have hdog := box_probability_world_to_bbox_bounds ksin kcos (world_x_at c) (world_y_at c)
      (world_theta_at kpi c) (world_dog : WorldObject K)
    have hcat := box_probability_world_to_bbox_bounds ksin kcos (world_x_at c) (world_y_at c)
      (world_theta_at kpi c) (world_cat : WorldObject K)
    nlinarith [hdog.1, hdog.2, hcat.1, hcat.2]
  calc (1305728 : K) / 400 = ∑ _c : Idx, (1 : K) / 400 := by
        rw [Finset.sum_const, Finset.card_univ]
        simp only [Fintype.card_prod, Fintype.card_fin, nsmul_eq_mul]
        norm_num
    _ ≤ gridSum (probmessage kexp klog kpi (nav_env ksin kcos kpi) []) :=
        Finset.sum_le_sum (fun c _ => hcell c)

/-- A constant-zero stand-in for a transcendental parameter. -/
def zero_fun : ℚ → ℚ := fun _ => 0

/-- A constant-one stand-in for a transcendental parameter. -/
def one_fun : ℚ → ℚ := fun _ => 1

/-- The state right before the first processed odometry: an (empty)
detections message has arrived, no odometry has been recorded. -/
def first_odom_state : NavState ℚ := ⟨set_uniform_pose_map, none, 0, some []⟩

/-- C2 counterexample: on the first processed odometry the callback sets the
belief to the raw observation likelihood and returns before the
clamp-and-renormalize of lines 318-319, so the belief it leaves behind does
not sum to `1`: with the real dog/cat landmark environment it sums to at
least `1305728 / 400`, a bound that holds uniformly in the transcendental
parameters (the constant instantiations below are arbitrary). -/
theorem pose_callback_first_update_not_normalized :
    gridSum ((pose_callback zero_fun zero_fun 0 (nav_env zero_fun one_fun 0) motion_zero
      ⟨(0, 0), 0⟩ first_odom_state).1.current_probability_map) ≠ 1 := by
  have hmap : (pose_callback zero_fun zero_fun 0 (nav_env zero_fun one_fun 0) motion_zero
      ⟨(0, 0), 0⟩ first_odom_state).1.current_probability_map
      = probmessage zero_fun zero_fun 0 (nav_env zero_fun one_fun 0) [] := rfl
  rw [hmap]
  have hge := probmessage_nil_sum_large zero_fun one_fun zero_fun zero_fun (0 : ℚ)
  intro h1
  rw [h1] at hge
  norm_num at hge

/-- C7: the renormalization of line 319 divides by the belief sum without a
zero guard.  When the branch result is annihilated (here: a motion update
whose shifted kernel has left the 11x11 support, so the predicted grid is
identically zero), the posterior belief becomes the zero grid (the exact
model of the all-NaN float result of `x / 0.0`) instead of the retained
prior: the prior state was the uniform belief and is not kept. -/
theorem pose_callback_zero_sum_not_guarded :
    (pose_callback (fun x : ℚ => x) (fun x : ℚ => x) 0 const_env motion_zero msg_move
        state_ready).1.current_probability_map = (fun _ => (0 : ℚ)) ∧
      (fun _ => (0 : ℚ)) ≠ state_ready.current_probability_map := by
  have hbs : (branch_step (fun x : ℚ => x) (fun x : ℚ => x) 0 const_env motion_zero msg_move
      state_ready [] ((0, 0) : ℚ × ℚ) (0 : ℚ)).1 = fun _ => (0 : ℚ) := by
    norm_num [branch_step, inertial_update, msg_move, state_ready]
    rfl
  constructor
  · rw [pose_callback_map_eq (fun x : ℚ => x) (fun x : ℚ => x) 0 const_env motion_zero
      msg_move state_ready [] ((0, 0), 0) rfl rfl, hbs]
    funext c
    simp
  · intro h
    have := congrFun h (⟨0, by norm_num⟩, ⟨0, by norm_num⟩, ⟨0, by norm_num⟩)
    rw [state_ready] at this
    norm_num [set_uniform_pose_map, num_grid_cells, num_orientation_cells] at this

/-- Helper: full characterization of the published pose.  There is a cell
`c0` — the row-major-first cell attaining the belief maximum — such that the
recomputed yaw argmax agrees with its yaw component and the published pose
is the source's conversion of its coordinates, with the hardcoded `3.141`
in place of `π`. -/
lemma publish_pose_char (m : Grid K) :
    ∃ c0 : Idx, m c0 = gridMax m ∧
      (∀ c : Idx, m c = gridMax m → idxFlat c0 ≤ idxFlat c) ∧
      rowArgmax m c0.1 c0.2.1 = c0.2.2 ∧
      publish_pose_msg m =
        ⟨grid_cells_origin_x + (c0.2.1.val : K) * world_cell_size,
         grid_cells_origin_y + world_grid_length - (c0.1.val : K) * world_cell_size,
         ((c0.2.2.val : K) / (num_orientation_cells : K)) * 2 * 3.141⟩ := by
  obtain ⟨c0, hc0S, hF⟩ := Finset.exists_mem_eq_inf' (gridMax_filter_nonempty m) idxFlat
  have hc0max : m c0 = gridMax m := (Finset.mem_filter.mp hc0S).2
  have hmin : ∀ c : Idx, m c = gridMax m → idxFlat c0 ≤ idxFlat c := by
    intro c hc
    have h9 := Finset.inf'_le (s := Finset.filter (fun cc => m cc = gridMax m) Finset.univ)
      idxFlat (Finset.mem_filter.mpr ⟨Finset.mem_univ c, hc⟩)
    exact le_trans (le_of_eq hF.symm) h9
  have hrowmax : rowMax m c0.1 c0.2.1 = gridMax m := by
    apply le_antisymm
    · exact Finset.sup'_le _ _ (fun t _ => Finset.le_sup' m (Finset.mem_univ (c0.1, c0.2.1, t)))
    · rw [← hc0max]
      exact Finset.le_sup' (fun t => m (c0.1, c0.2.1, t)) (Finset.mem_univ c0.2.2)
  have hargmax : rowArgmax m c0.1 c0.2.1 = c0.2.2 := by
    have hmem : c0.2.2 ∈ Finset.univ.filter
        (fun t : Fin 128 => m (c0.1, c0.2.1, t) = rowMax m c0.1 c0.2.1) := by
      refine Finset.mem_filter.mpr ⟨Finset.mem_univ _, ?_⟩
      rw [hrowmax]
      exact hc0max
    apply le_antisymm
    · exact Finset.min'_le _ _ hmem
    · have ht1mem : rowArgmax m c0.1 c0.2.1 ∈ Finset.univ.filter
          (fun t : Fin 128 => m (c0.1, c0.2.1, t) = rowMax m c0.1 c0.2.1) :=
        Finset.min'_mem _ _
      have ht1max : m (c0.1, c0.2.1, rowArgmax m c0.1 c0.2.1) = gridMax m := by
        have h2 := (Finset.mem_filter.mp ht1mem).2
        rw [hrowmax] at h2
        exact h2
      have hSt1 := hmin _ ht1max
      simp only [idxFlat] at hSt1
      exact Fin.le_def.mpr (by omega)
  have hdecode : unflatten (mleFlat m) = c0 := by
    rw [show mleFlat m = idxFlat c0 from hF, unflatten_idxFlat]
  have hloc : get_location_MLE m = ((c0.1, c0.2.1), c0.2.2) := by
    simp only [get_location_MLE, hdecode]
    rw [hargmax]
  refine ⟨c0, hc0max, hmin, hargmax, ?_⟩
  simp only [publish_pose_msg, hloc]

/-- C9 (amended): the published MLE pose is obtained from the row-major-first
cell attaining the belief maximum; its spatial part `(iy, ix)` and the yaw
index `iθ` maximizing `belief[iy, ix, :]` (which coincides with the yaw
component of that first maximal cell) are converted as
`world_x = -1.5 + ix * cell_size`,
`world_y = -1.5 + world_grid_length - iy * cell_size`, and
`world_yaw = (iθ / Θ) * 2 * 3.141` — the source hardcodes `3.141`, so the
yaw differs from the claimed `(iθ / Θ) * 2π` whenever `iθ ≠ 0`. -/
theorem publish_pose_msg_formula (m : Grid K) :
    ∃ c0 : Idx, m c0 = gridMax m ∧
      (∀ c : Idx, m c = gridMax m → idxFlat c0 ≤ idxFlat c) ∧
      rowArgmax m c0.1 c0.2.1 = c0.2.2 ∧
      publish_pose_msg m =
        ⟨grid_cells_origin_x + (c0.2.1.val : K) * world_cell_size,
         grid_cells_origin_y + world_grid_length - (c0.1.val : K) * world_cell_size,
         ((c0.2.2.val : K) / (num_orientation_cells : K)) * 2 * 3.141⟩ :=
  publish_pose_char m

/-- The cell with indices `(iy, ix, iθ) = (0, 0, 64)`. -/
def cell_0_0_64 : Idx :=
  ((⟨0, by norm_num⟩ : Fin 101), (⟨0, by norm_num⟩ : Fin 101), (⟨64, by norm_num⟩ : Fin 128))

/-- The belief concentrated at cell `(0, 0, 64)`. -/
def delta_at_64 : Grid ℚ := fun c => if c = cell_0_0_64 then 1 else 0

/-- C9 counterexample: on the belief concentrated at `(iy, ix, iθ) =
(0, 0, 64)` the source publishes `yaw = (64 / 128) * 2 * 3.141 = 3.141`,
whereas the claimed conversion `(iθ / Θ) * 2π` gives `π ≠ 3.141`. -/
theorem publish_pose_msg_yaw_not_two_pi :
    (publish_pose_msg delta_at_64).yaw = 3.141 ∧
      (3.141 : ℝ) ≠ ((64 : ℝ) / 128) * (2 * Real.pi) := by
  constructor
  · obtain ⟨c0, hmax, _, _, hpub⟩ := publish_pose_char delta_at_64
    have hgm : gridMax delta_at_64 = 1 := by
      apply le_antisymm
      · apply Finset.sup'_le
        intro c _
        simp only [delta_at_64]
        split_ifs <;> norm_num
      · have hle := Finset.le_sup' delta_at_64 (Finset.mem_univ cell_0_0_64)
        have hval : delta_at_64 cell_0_0_64 = 1 := by
          simp [delta_at_64]
        rw [hval] at hle
        exact hle
    have hc0 : c0 = cell_0_0_64 := by
      by_contra hne
      have hzero : delta_at_64 c0 = 0 := by
        simp only [delta_at_64, if_neg hne]
      rw [hgm, hzero] at hmax
      norm_num at hmax
    rw [hpub, hc0]
    norm_num [num_orientation_cells, cell_0_0_64]
  · intro h
    have hpi : (3.141592 : ℝ) < Real.pi := Real.pi_gt_d6
    have : ((64 : ℝ) / 128) * (2 * Real.pi) = Real.pi := by ring
    rw [this] at h
    linarith

end ThomasNav
